import Mathlib

/-!
Verification of the lock-verifier scripts of this repository:
`src/scripts/verify-lock.py` (namespace `VLH`, the hyphenated script) and
`src/scripts/verify_lock.py` (namespace `VLU`, the underscored script).

Both scripts resolve registry paths against `ROOT = dirname(dirname(__file__))`,
compute SHA-256 digests of file contents via `hashlib`, compare against an
embedded table of expected hex digests, print a report and exit.

The embedding models:
- POSIX paths as an absolute-flag plus a component list;
- the filesystem as a total map from paths to a file state that is either
  absent (`os.path.exists` is false), existing-but-unopenable (`open` raises),
  or readable with a concrete byte content (bytes as `List Nat`);
- `hashlib.sha256(...).hexdigest()` as a parameter `hash : List Nat → String`
  applied to the full absorbed byte stream: `h.update(b)` absorbs the bytes of
  `b`, and `hexdigest()` is the library digest of everything absorbed, so a
  run of updates with chunks is the digest of the chunks' concatenation
  (the library itself is external to the repository);
- a finished process as its printed stdout lines plus an exit code, and a
  process killed by an uncaught Python exception as `RunResult.uncaught`
  carrying the lines printed before the exception.
-/

namespace LockVerify

/-- A POSIX path: whether it is absolute, and its `/`-separated components. -/
structure Path where
  abs : Bool
  comps : List String
deriving DecidableEq

/-- Auxiliary splitter: cut a character list at every `/`. -/
def splitSlashAux : List Char → List Char → List String
  | [], acc => [String.mk acc.reverse]
  | c :: cs, acc =>
      if c = '/' then String.mk acc.reverse :: splitSlashAux cs []
      else splitSlashAux cs (c :: acc)

/-- A relative path literal of the scripts, split on `/` into components. -/
def parseRel (s : String) : Path := Path.mk false (splitSlashAux s.data [])

/-- `os.path.dirname` on a component path: drop the last component. -/
def Path.dirname (p : Path) : Path := Path.mk p.abs p.comps.dropLast

/-- `os.path.join a b`: if `b` is absolute it wins, else append components. -/
def Path.join (a b : Path) : Path :=
  if b.abs then b else Path.mk a.abs (a.comps ++ b.comps)

/-- The OS resolves a relative path against the current working directory;
an absolute path is taken as is. -/
def resolveAgainstCwd (cwd p : Path) : Path :=
  if p.abs then p else Path.mk cwd.abs (cwd.comps ++ p.comps)

/-- `ROOT = os.path.dirname(os.path.dirname(__file__))`, as in both scripts. -/
def ROOT (file : Path) : Path := file.dirname.dirname

/-- The path actually consulted for a registry entry: `os.path.join(ROOT, rel)`
as the process's OS resolves it (against the cwd when it is relative). -/
def resolved (root cwd : Path) (rel : String) : Path :=
  resolveAgainstCwd cwd (root.join (parseRel rel))

/-- State of one filesystem path: absent (`os.path.exists` false), existing
but unopenable (`open` raises, e.g. a permission error), or readable with
the given byte content. -/
inductive FState
  | absent
  | unreadable
  | readable (content : List Nat)
deriving DecidableEq

/-- A filesystem: a total assignment of a state to every path. -/
abbrev FS := Path → FState

/-- Result of running one of the scripts: a normal termination with the
printed stdout lines and the process exit code, or termination by an
uncaught Python exception (the lines printed before it are kept). -/
inductive RunResult
  | exited (lines : List String) (code : Nat)
  | uncaught (lines : List String)
deriving DecidableEq

/-- The stdout lines of a run, whether it exited or crashed. -/
def RunResult.output : RunResult → List String
  | RunResult.exited l _ => l
  | RunResult.uncaught l => l

/-- The exit code of a run; `none` when the run ended in an uncaught
exception instead of an explicit exit. -/
def RunResult.exitCode : RunResult → Option Nat
  | RunResult.exited _ c => some c
  | RunResult.uncaught _ => none

/-- The `while True: b=f.read(8192); if not b: break; h.update(b)` loop of
`sha256_file`: the successive chunks `f.read(n)` returns over a content.
The first argument is structural fuel bounding the number of iterations;
`readChunks` supplies `content.length`, which suffices for any positive
chunk size. -/
def readChunksFuel : Nat → Nat → List Nat → List (List Nat)
  | 0, _, _ => []
  | Nat.succ fuel, n, c =>
      if c = [] then [] else c.take n :: readChunksFuel fuel n (c.drop n)

/-- The chunks `f.read(n)` yields over a file whose content is `c`. -/
def readChunks (n : Nat) (c : List Nat) : List (List Nat) :=
  readChunksFuel c.length n c

/-- Per-entry verification status, the spec's `VerificationResult` states plus
the state the scripts do not handle (existing but unopenable). -/
inductive Status
  | Ok
  | Mismatch
  | Missing
  | Unreadable
deriving DecidableEq

lemma readChunksFuel_join (n : Nat) (hn : n ≠ 0) :
    ∀ (fuel : Nat) (c : List Nat), c.length ≤ fuel →
      (readChunksFuel fuel n c).flatten = c := by
  intro fuel
  induction fuel with
  | zero =>
      intro c hc
      have : c = [] := List.eq_nil_of_length_eq_zero (Nat.le_zero.mp hc)
      subst this
      simp [readChunksFuel]
  | succ fuel ih =>
      intro c hc
      by_cases hce : c = []
      · subst hce; simp [readChunksFuel]
      · have hlen : (c.drop n).length ≤ fuel := by
          have h1 : 0 < c.length := List.length_pos.mpr hce
          have h2 : 0 < n := Nat.pos_of_ne_zero hn
          simp only [List.length_drop]
          omega
        simp only [readChunksFuel, if_neg hce, List.flatten]
        rw [ih (c.drop n) hlen]
        exact List.take_append_drop n c

/-- Feeding a content to the accumulator in 8192-byte chunks absorbs exactly
the original content. -/
lemma readChunks_join (c : List Nat) : (readChunks 8192 c).flatten = c :=
  readChunksFuel_join 8192 (by decide) c.length c (Nat.le_refl _)

namespace VLH

/-- The `HASHES` table of `src/scripts/verify-lock.py`: relative path to
expected hex digest, in the dict's insertion order (Python dicts iterate in
insertion order). -/
def HASHES : List (String × String) := [
  ("plugins/field/Source/dsp/EMUAuthenticTables.h",
   "06fbc6e2fd27db087219f0d9f53f9962997f8cb8001490458f6053bc2e46aa86"),
  ("plugins/field/Source/dsp/ZPlaneFilter.h",
   "d73839b6852f7f5d8f135b18cea9c8f68c89962e33342b91bdea99607003e821"),
  ("plugins/field/Source/dsp/EnvelopeFollower.h",
   "81d97f6fcbe3547cf319a47205c7ab560c5691c55d8654091ac12b0a6318ba07")]

/-- `sha256_file(p)` of `verify-lock.py`: open the file, read it in 8192-byte
chunks, feed each chunk to the accumulator, return the hex digest of the
absorbed stream. `none` when `open`/`read` raises (absent or unopenable
file); the exception is not caught anywhere in the script. -/
def sha256_file (hash : List Nat → String) (fs : FS) (p : Path) : Option String :=
  match fs p with
  | FState.readable c => some (hash (readChunks 8192 c).flatten)
  | _ => none

/-- The line `print(f"[LOCK] Missing locked file: {rel}")`. -/
def missingLine (rel : String) : String := "[LOCK] Missing locked file: " ++ rel

/-- The three lines printed on a hash mismatch. -/
def mismatchLines (rel expected got : String) : List String :=
  ["[LOCK] Hash mismatch for " ++ rel,
   "       expected: " ++ expected,
   "       got     : " ++ got]

/-- The failure banner; `print(f"\nLOCK FAILED: ...")` emits an empty line
before it, modeled as a separate `""` output line. -/
def failBanner : String :=
  "LOCK FAILED: DSP files modified. Revert changes or update hashes after re‑validation."

/-- The `for rel, expected in HASHES.items():` loop of `main()` plus the
final report: `ok` is the running flag, `lines` what has been printed so
far. Per entry: a non-existing path prints the missing line and continues;
otherwise `sha256_file` runs (an unopenable file raises, terminating the
process uncaught) and a digest unequal to `expected` (exact string
comparison) prints the mismatch lines. After the loop: failure banner and
return 2 if any entry failed, else `LOCK OK` and return 0. -/
def mainLoop (hash : List Nat → String) (fs : FS) (root cwd : Path) :
    List (String × String) → Bool → List String → RunResult
  | [], ok, lines =>
      if ok then RunResult.exited (lines ++ ["LOCK OK"]) 0
      else RunResult.exited (lines ++ ["", failBanner]) 2
  | e :: rest, ok, lines =>
      if fs (resolved root cwd e.1) = FState.absent then
        mainLoop hash fs root cwd rest false (lines ++ [missingLine e.1])
      else
        match sha256_file hash fs (resolved root cwd e.1) with
        | none => RunResult.uncaught lines
        | some h =>
            if h = e.2 then mainLoop hash fs root cwd rest ok lines
            else mainLoop hash fs root cwd rest false (lines ++ mismatchLines e.1 e.2 h)

/-- `main()` of `verify-lock.py`, run with the script at `file` and the
process working directory `cwd` over filesystem `fs`. -/
def main (hash : List Nat → String) (file cwd : Path) (fs : FS) : RunResult :=
  mainLoop hash fs (ROOT file) cwd HASHES true []

/-- The verification status the script's branches assign to one entry. -/
def entryStatus (hash : List Nat → String) (fs : FS) (root cwd : Path)
    (e : String × String) : Status :=
  match fs (resolved root cwd e.1) with
  | FState.absent => Status.Missing
  | FState.unreadable => Status.Unreadable
  | FState.readable c =>
      if hash (readChunks 8192 c).flatten = e.2 then Status.Ok else Status.Mismatch

/-- Boolean form of `entryStatus ... = Ok`. -/
def entryOk (hash : List Nat → String) (fs : FS) (root cwd : Path)
    (e : String × String) : Bool :=
  decide (entryStatus hash fs root cwd e = Status.Ok)

/-- The report lines one failing entry contributes (empty for the unopenable
state, in which the script never reaches a print for the entry). -/
def renderFail (hash : List Nat → String) (fs : FS) (root cwd : Path)
    (e : String × String) : List String :=
  match fs (resolved root cwd e.1) with
  | FState.absent => [missingLine e.1]
  | FState.unreadable => []
  | FState.readable c => mismatchLines e.1 e.2 (hash (readChunks 8192 c).flatten)

end VLH

namespace VLU

/-- Expected digest for `ZPlaneFilter.h` in `verify_lock.py`'s `EXP` dict. -/
def EXP_Z : String := "dbfe0b15ba73ab1a44a698e31617fecb0a71cb622dc10c7770994f55e3554f33"

/-- Expected digest for `EMUAuthenticTables.h` in `verify_lock.py`'s `EXP`. -/
def EXP_T : String := "b3bd58a897b16065c12faa3e2b966f0ac9a28581231ece2be599e19d14cf3756"

/-- The relative path `Z` is joined from: `plugins/EngineField/Source/dsp/ZPlaneFilter.h`. -/
def zRel : String := "plugins/EngineField/Source/dsp/ZPlaneFilter.h"

/-- The relative path `T` is joined from: `plugins/EngineField/Source/dsp/EMUAuthenticTables.h`. -/
def tRel : String := "plugins/EngineField/Source/dsp/EMUAuthenticTables.h"

/-- `EXP[name]` lookup; both call sites use a key present in the dict. -/
def lookupEXP (n : String) : String :=
  if n = "ZPlaneFilter.h" then EXP_Z
  else if n = "EMUAuthenticTables.h" then EXP_T
  else ""

/-- `sha(p) = hashlib.sha256(open(p,"rb").read()).hexdigest()`: the digest of
the whole content read in one call. `none` when `open`/`read` raises; the
script catches nothing, so a `none` at a call site kills the process. -/
def sha (hash : List Nat → String) (fs : FS) (p : Path) : Option String :=
  match fs p with
  | FState.readable c => some (hash c)
  | _ => none

/-- The violation report line `f"  - {name}: {h} (expected {EXP[name]})"`. -/
def violationLine (nh : String × String) : String :=
  "  - " ++ nh.1 ++ ": " ++ nh.2 ++ " (expected " ++ lookupEXP nh.1 ++ ")"

/-- The module body of `verify_lock.py`. Each `if sha(P) != EXP[...]` calls
`sha` once for the comparison and, on a mismatch, a second time for the
recorded digest; any raising read terminates the process before anything is
printed. With a non-empty `bad` list the script prints the violation header
and one line per entry and exits 2; otherwise it prints `DSP lock OK.` and
falls off the end (exit 0). -/
def main (hash : List Nat → String) (file cwd : Path) (fs : FS) : RunResult :=
  match sha hash fs (resolved (ROOT file) cwd zRel) with
  | none => RunResult.uncaught []
  | some hz =>
      match (if hz ≠ EXP_Z then
               (sha hash fs (resolved (ROOT file) cwd zRel)).map
                 (fun h2 => [("ZPlaneFilter.h", h2)])
             else some []) with
      | none => RunResult.uncaught []
      | some bad1 =>
          match sha hash fs (resolved (ROOT file) cwd tRel) with
          | none => RunResult.uncaught []
          | some ht =>
              match (if ht ≠ EXP_T then
                       (sha hash fs (resolved (ROOT file) cwd tRel)).map
                         (fun h2 => bad1 ++ [("EMUAuthenticTables.h", h2)])
                     else some bad1) with
              | none => RunResult.uncaught []
              | some bad =>
                  if bad ≠ [] then
                    RunResult.exited
                      ("DSP LOCK VIOLATION:" :: bad.map violationLine) 2
                  else
                    RunResult.exited ["DSP lock OK."] 0

/-- The verification status `verify_lock.py`'s comparison assigns to the
entry at relative path `rel` with expected digest `expected`. -/
def entryStatus (hash : List Nat → String) (fs : FS) (root cwd : Path)
    (rel expected : String) : Status :=
  match fs (resolved root cwd rel) with
  | FState.absent => Status.Missing
  | FState.unreadable => Status.Unreadable
  | FState.readable c =>
      if hash c = expected then Status.Ok else Status.Mismatch

/-- The entry check of lines 10-11 with the two `sha` reads made explicit:
`c1` is the content the first `open(p).read()` returns (hashed for the
comparison against `expected`), `c2` the content the second one returns
(hashed for the recorded/displayed digest). -/
def checkTwice (hash : List Nat → String) (expected : String)
    (c1 c2 : List Nat) : Option String :=
  if hash c1 ≠ expected then some (hash c2) else none

end VLU

/-- Closed form of `VLH.mainLoop` on filesystems with no unopenable file
among the remaining entries: the run exits normally, the report is the
in-order concatenation of the failing entries' lines, and the code is 0
exactly when the flag stays true and every entry is Ok. -/
lemma VLH.mainLoop_spec (hash : List Nat → String) (fs : FS) (root cwd : Path) :
    ∀ (es : List (String × String)) (ok : Bool) (lines : List String),
      (∀ e ∈ es, fs (resolved root cwd e.1) ≠ FState.unreadable) →
      VLH.mainLoop hash fs root cwd es ok lines =
        RunResult.exited
          (lines ++
            ((es.filter fun e => ! VLH.entryOk hash fs root cwd e).map
                (VLH.renderFail hash fs root cwd)).flatten ++
            (if ok && es.all (VLH.entryOk hash fs root cwd) then ["LOCK OK"]
             else ["", VLH.failBanner]))
          (if ok && es.all (VLH.entryOk hash fs root cwd) then 0 else 2) := by
  intro es
  induction es with
  | nil =>
      intro ok lines _
      cases ok <;> simp [VLH.mainLoop]
  | cons e rest ih =>
      intro ok lines h
      have he : fs (resolved root cwd e.1) ≠ FState.unreadable :=
        h e (List.mem_cons_self e rest)
      have hrest : ∀ e' ∈ rest, fs (resolved root cwd e'.1) ≠ FState.unreadable :=
        fun e' he' => h e' (List.mem_cons_of_mem e he')
      cases hfs : fs (resolved root cwd e.1) with
      | unreadable => exact absurd hfs he
      | absent =>
          have hok : VLH.entryOk hash fs root cwd e = false := by
            simp [VLH.entryOk, VLH.entryStatus, hfs]
          rw [VLH.mainLoop, if_pos hfs, ih false (lines ++ [VLH.missingLine e.1]) hrest]
          simp [hok, VLH.renderFail, hfs, List.append_assoc]
      | readable c =>
          rw [VLH.mainLoop, if_neg (by rw [hfs]; intro hcon; cases hcon)]
          simp only [VLH.sha256_file, hfs]
          by_cases hv : hash (readChunks 8192 c).flatten = e.2
          · have hok : VLH.entryOk hash fs root cwd e = true := by
              simp [VLH.entryOk, VLH.entryStatus, hfs, hv]
            have hfilt : List.filter (fun x => ! VLH.entryOk hash fs root cwd x) (e :: rest)
                = List.filter (fun x => ! VLH.entryOk hash fs root cwd x) rest := by
              simp [List.filter_cons, hok]
            have hall : (e :: rest).all (VLH.entryOk hash fs root cwd)
                = rest.all (VLH.entryOk hash fs root cwd) := by
              simp [List.all_cons, hok]
            rw [if_pos hv, ih ok lines hrest, hfilt, hall]
          · have hok : VLH.entryOk hash fs root cwd e = false := by
              simp [VLH.entryOk, VLH.entryStatus, hfs, hv]
            rw [if_neg hv,
              ih false (lines ++ VLH.mismatchLines e.1 e.2 (hash (readChunks 8192 c).flatten)) hrest]
            simp [hok, VLH.renderFail, hfs, List.append_assoc]

/-- On every filesystem (unopenable files included), `verify-lock.py` exits
with code 0 exactly when the flag is still true and every remaining entry's
status is Ok. -/
lemma VLH.mainLoop_exit0_iff (hash : List Nat → String) (fs : FS) (root cwd : Path) :
    ∀ (es : List (String × String)) (ok : Bool) (lines : List String),
      (∃ l, VLH.mainLoop hash fs root cwd es ok lines = RunResult.exited l 0) ↔
      (ok = true ∧ ∀ e ∈ es, VLH.entryStatus hash fs root cwd e = Status.Ok) := by
  intro es
  induction es with
  | nil =>
      intro ok lines
      cases ok <;> simp [VLH.mainLoop]
  | cons e rest ih =>
      intro ok lines
      rw [List.forall_mem_cons]
      cases hfs : fs (resolved root cwd e.1) with
      | absent =>
          rw [VLH.mainLoop, if_pos hfs, ih]
          simp [VLH.entryStatus, hfs]
      | unreadable =>
          rw [VLH.mainLoop, if_neg (by rw [hfs]; intro hcon; cases hcon)]
          simp only [VLH.sha256_file, hfs]
          simp [VLH.entryStatus, hfs]
      | readable c =>
          rw [VLH.mainLoop, if_neg (by rw [hfs]; intro hcon; cases hcon)]
          simp only [VLH.sha256_file, hfs]
          by_cases hv : hash (readChunks 8192 c).flatten = e.2
          · rw [if_pos hv, ih]
            simp [VLH.entryStatus, hfs, hv]
          · rw [if_neg hv, ih]
            simp [VLH.entryStatus, hfs, hv]

/-- On every filesystem, `verify_lock.py` exits with code 0 exactly when both
of its entries check out Ok. -/
lemma VLU.main_exit0_iff (hash : List Nat → String) (file cwd : Path) (fs : FS) :
    (∃ l, VLU.main hash file cwd fs = RunResult.exited l 0) ↔
    (VLU.entryStatus hash fs (ROOT file) cwd VLU.zRel VLU.EXP_Z = Status.Ok ∧
     VLU.entryStatus hash fs (ROOT file) cwd VLU.tRel VLU.EXP_T = Status.Ok) := by
  cases hz : fs (resolved (ROOT file) cwd VLU.zRel) with
  | absent => simp [VLU.main, VLU.sha, hz, VLU.entryStatus]
  | unreadable => simp [VLU.main, VLU.sha, hz, VLU.entryStatus]
  | readable cz =>
      cases ht : fs (resolved (ROOT file) cwd VLU.tRel) with
      | absent =>
          by_cases hvz : hash cz = VLU.EXP_Z <;>
            simp [VLU.main, VLU.sha, hz, ht, hvz, VLU.entryStatus]
      | unreadable =>
          by_cases hvz : hash cz = VLU.EXP_Z <;>
            simp [VLU.main, VLU.sha, hz, ht, hvz, VLU.entryStatus]
      | readable ct =>
          by_cases hvz : hash cz = VLU.EXP_Z <;>
            by_cases hvt : hash ct = VLU.EXP_T <;>
            simp [VLU.main, VLU.sha, hz, ht, hvz, hvt, VLU.entryStatus]

/-- With both protected files readable and at least one digest mismatching,
`verify_lock.py` exits with code 2. -/
lemma VLU.main_exit2 (hash : List Nat → String) (file cwd : Path) (fs : FS)
    (cz ct : List Nat)
    (hz : fs (resolved (ROOT file) cwd VLU.zRel) = FState.readable cz)
    (ht : fs (resolved (ROOT file) cwd VLU.tRel) = FState.readable ct)
    (hbad : hash cz ≠ VLU.EXP_Z ∨ hash ct ≠ VLU.EXP_T) :
    ∃ l, VLU.main hash file cwd fs = RunResult.exited l 2 := by
  by_cases hvz : hash cz = VLU.EXP_Z <;> by_cases hvt : hash ct = VLU.EXP_T
  · exact absurd hbad (by simp [hvz, hvt])
  · simp [VLU.main, VLU.sha, hz, ht, hvz, hvt]
  · simp [VLU.main, VLU.sha, hz, ht, hvz, hvt]
  · simp [VLU.main, VLU.sha, hz, ht, hvz, hvt]

/-- When the root is absolute, the path consulted for an entry does not
depend on the working directory: it is root components plus rel components. -/
lemma resolved_abs (root cwd : Path) (rel : String) (h : root.abs = true) :
    resolved root cwd rel = Path.mk true (root.comps ++ (parseRel rel).comps) := by
  cases root with
  | mk a comps =>
      cases h
      simp [resolved, Path.join, parseRel, resolveAgainstCwd]

/-- Consequence: two working directories resolve every entry identically. -/
lemma resolved_cwd_indep (root cwd1 cwd2 : Path) (rel : String) (h : root.abs = true) :
    resolved root cwd1 rel = resolved root cwd2 rel := by
  rw [resolved_abs root cwd1 rel h, resolved_abs root cwd2 rel h]

/-- `verify-lock.py`'s loop is invariant under a change of working directory
that resolves every relative path to the same place. -/
lemma VLH.mainLoop_cwd_congr (hash : List Nat → String) (fs : FS) (root cwd1 cwd2 : Path)
    (h : ∀ rel, resolved root cwd1 rel = resolved root cwd2 rel) :
    ∀ (es : List (String × String)) (ok : Bool) (lines : List String),
      VLH.mainLoop hash fs root cwd1 es ok lines =
      VLH.mainLoop hash fs root cwd2 es ok lines := by
  intro es
  induction es with
  | nil => intro ok lines; rfl
  | cons e rest ih =>
      intro ok lines
      rw [VLH.mainLoop, VLH.mainLoop, h e.1]
      by_cases habs : fs (resolved root cwd2 e.1) = FState.absent
      · rw [if_pos habs, if_pos habs, ih]
      · rw [if_neg habs, if_neg habs]
        cases hs : VLH.sha256_file hash fs (resolved root cwd2 e.1) with
        | none => rfl
        | some hv =>
            dsimp only
            by_cases heq : hv = e.2
            · rw [if_pos heq, if_pos heq, ih]
            · rw [if_neg heq, if_neg heq, ih]

/-- `verify_lock.py` is likewise invariant under such a change. -/
lemma VLU.main_cwd_congr (hash : List Nat → String) (file cwd1 cwd2 : Path) (fs : FS)
    (h : ∀ rel, resolved (ROOT file) cwd1 rel = resolved (ROOT file) cwd2 rel) :
    VLU.main hash file cwd1 fs = VLU.main hash file cwd2 fs := by
  simp only [VLU.main, h VLU.zRel, h VLU.tRel]

/-- Lowercasing a string character by character; equality of lowercasings is
the case-insensitive comparison of two hex strings. -/
def toLowerStr (s : String) : String := String.mk (s.data.map Char.toLower)

/-- Concrete absolute script location `/repo/scripts/<script>.py` used for
witnesses and counterexamples. -/
def spW : Path := Path.mk true ["repo", "scripts", "verify-lock.py"]

/-- A concrete working directory. -/
def cwdW : Path := Path.mk true ["somewhere"]

/-- A second, different concrete working directory. -/
def cwdW2 : Path := Path.mk true ["elsewhere"]

/-- A filesystem with every path absent. -/
def fsAbsent : FS := fun _ => FState.absent

/-- A filesystem where every path exists but cannot be opened. -/
def fsUnreadable : FS := fun _ => FState.unreadable

/-- A trivial digest function for counterexamples: constant empty string. -/
def cHash0 : List Nat → String := fun _ => ""

/-- A digest function sending five tag contents to the five registry
digests; its outputs are all lowercase hex (or empty). -/
def hashW : List Nat → String := fun c =>
  if c = [0] then "06fbc6e2fd27db087219f0d9f53f9962997f8cb8001490458f6053bc2e46aa86"
  else if c = [1] then "d73839b6852f7f5d8f135b18cea9c8f68c89962e33342b91bdea99607003e821"
  else if c = [2] then "81d97f6fcbe3547cf319a47205c7ab560c5691c55d8654091ac12b0a6318ba07"
  else if c = [3] then VLU.EXP_Z
  else if c = [4] then VLU.EXP_T
  else ""

/-- A filesystem in which all five protected files (three of `verify-lock.py`,
two of `verify_lock.py`) are readable with the tag contents `hashW` maps to
their expected digests. -/
def fsW : FS := fun p =>
  if p = resolved (ROOT spW) cwdW "plugins/field/Source/dsp/EMUAuthenticTables.h" then
    FState.readable [0]
  else if p = resolved (ROOT spW) cwdW "plugins/field/Source/dsp/ZPlaneFilter.h" then
    FState.readable [1]
  else if p = resolved (ROOT spW) cwdW "plugins/field/Source/dsp/EnvelopeFollower.h" then
    FState.readable [2]
  else if p = resolved (ROOT spW) cwdW VLU.zRel then FState.readable [3]
  else if p = resolved (ROOT spW) cwdW VLU.tRel then FState.readable [4]
  else FState.absent

/-- A filesystem where the first `verify-lock.py` entry exists but cannot be
opened and everything else is absent. -/
def fsC2 : FS := fun p =>
  if p = resolved (ROOT spW) cwdW "plugins/field/Source/dsp/EMUAuthenticTables.h" then
    FState.unreadable
  else FState.absent

/-- C1 counterexample: on the all-absent filesystem, `verify_lock.py`'s
`ZPlaneFilter.h` entry has status Missing, yet the process does not exit
with the integrity-violation code 2 (or any code): the first `sha` call
raises an uncaught exception that kills the run. -/
theorem claim_C1_counterexample :
    VLU.entryStatus cHash0 fsAbsent (ROOT spW) cwdW VLU.zRel VLU.EXP_Z = Status.Missing ∧
    VLU.main cHash0 spW cwdW fsAbsent = RunResult.uncaught [] ∧
    (VLU.main cHash0 spW cwdW fsAbsent).exitCode = none := by decide

/-- C1 (amended): for both scripts the exit status is 0 iff every registry
entry's status is Ok, on every filesystem. A Mismatch or Missing forces the
integrity code 2 only when no read raises — for `verify-lock.py`, when no
protected path is existing-but-unopenable; for `verify_lock.py`, when both
protected files are readable (a missing or unopenable file instead kills
the process with an uncaught exception, without the exit code 2). -/
theorem claim_C1_amended (hash : List Nat → String) (sp cwd : Path) (fs : FS) :
    ((∃ l, VLH.main hash sp cwd fs = RunResult.exited l 0) ↔
      (∀ e ∈ VLH.HASHES, VLH.entryStatus hash fs (ROOT sp) cwd e = Status.Ok)) ∧
    ((∃ l, VLU.main hash sp cwd fs = RunResult.exited l 0) ↔
      (VLU.entryStatus hash fs (ROOT sp) cwd VLU.zRel VLU.EXP_Z = Status.Ok ∧
       VLU.entryStatus hash fs (ROOT sp) cwd VLU.tRel VLU.EXP_T = Status.Ok)) ∧
    ((∀ e ∈ VLH.HASHES, fs (resolved (ROOT sp) cwd e.1) ≠ FState.unreadable) →
      (∃ e ∈ VLH.HASHES, VLH.entryStatus hash fs (ROOT sp) cwd e ≠ Status.Ok) →
      ∃ l, VLH.main hash sp cwd fs = RunResult.exited l 2) ∧
    (∀ cz ct, fs (resolved (ROOT sp) cwd VLU.zRel) = FState.readable cz →
      fs (resolved (ROOT sp) cwd VLU.tRel) = FState.readable ct →
      (hash cz ≠ VLU.EXP_Z ∨ hash ct ≠ VLU.EXP_T) →
      ∃ l, VLU.main hash sp cwd fs = RunResult.exited l 2) := by
  refine ⟨?_, VLU.main_exit0_iff hash sp cwd fs, ?_, ?_⟩
  · have h := VLH.mainLoop_exit0_iff hash fs (ROOT sp) cwd VLH.HASHES true []
    simpa using h
  · intro hnr ⟨e, he, hne⟩
    have hspec := VLH.mainLoop_spec hash fs (ROOT sp) cwd VLH.HASHES true [] hnr
    have hallb : VLH.HASHES.all (VLH.entryOk hash fs (ROOT sp) cwd) = false := by
      rcases hb : VLH.HASHES.all (VLH.entryOk hash fs (ROOT sp) cwd) with _ | _
      · rfl
      · exact absurd (by simpa [VLH.entryOk] using List.all_eq_true.mp hb e he) hne
    rw [hallb, Bool.and_false] at hspec
    exact ⟨_, hspec⟩
  · intro cz ct hz ht hbad
    exact VLU.main_exit2 hash sp cwd fs cz ct hz ht hbad

/-- C1 witness: an instance of the amended claim at a concrete digest engine,
script location and all-matching filesystem. -/
theorem claim_C1_witness :
    (∃ l, VLH.main hashW spW cwdW fsW = RunResult.exited l 0) ↔
      (∀ e ∈ VLH.HASHES, VLH.entryStatus hashW fsW (ROOT spW) cwdW e = Status.Ok) :=
  (claim_C1_amended hashW spW cwdW fsW).1

/-- C2 counterexample: with the first protected file existing but unopenable,
`verify-lock.py` dies on the I/O error — the run is an uncaught exception,
and the later entry, which is missing, is neither checked nor reported. -/
theorem claim_C2_counterexample :
    VLH.main cHash0 spW cwdW fsC2 = RunResult.uncaught [] ∧
    VLH.entryStatus cHash0 fsC2 (ROOT spW) cwdW
      ("plugins/field/Source/dsp/ZPlaneFilter.h",
       "d73839b6852f7f5d8f135b18cea9c8f68c89962e33342b91bdea99607003e821") = Status.Missing ∧
    VLH.missingLine "plugins/field/Source/dsp/ZPlaneFilter.h" ∉
      (VLH.main cHash0 spW cwdW fsC2).output := by decide

/-- Helper: with no unopenable protected path, the `verify-lock.py` run exits
normally and every non-Ok entry's report lines appear in the output. -/
lemma VLH.main_reports (hash : List Nat → String) (sp cwd : Path) (fs : FS)
    (hnr : ∀ e ∈ VLH.HASHES, fs (resolved (ROOT sp) cwd e.1) ≠ FState.unreadable) :
    (∃ l c, VLH.main hash sp cwd fs = RunResult.exited l c) ∧
    (∀ e ∈ VLH.HASHES, VLH.entryStatus hash fs (ROOT sp) cwd e ≠ Status.Ok →
      ∀ s ∈ VLH.renderFail hash fs (ROOT sp) cwd e,
        s ∈ (VLH.main hash sp cwd fs).output) := by
  have hspec := VLH.mainLoop_spec hash fs (ROOT sp) cwd VLH.HASHES true [] hnr
  constructor
  · exact ⟨_, _, hspec⟩
  · intro e he hne s hs
    have hmem : e ∈ VLH.HASHES.filter fun x => ! VLH.entryOk hash fs (ROOT sp) cwd x :=
      List.mem_filter.mpr ⟨he, by simp [VLH.entryOk, hne]⟩
    show s ∈ (VLH.mainLoop hash fs (ROOT sp) cwd VLH.HASHES true []).output
    rw [hspec]
    simp only [RunResult.output, List.nil_append, List.mem_append]
    exact Or.inl (List.mem_flatten.mpr
      ⟨VLH.renderFail hash fs (ROOT sp) cwd e,
       List.mem_map_of_mem _ hmem, hs⟩)

/-- C2 (amended): for `verify-lock.py`, as long as no protected path is
existing-but-unopenable, no single bad entry terminates the process: the
run exits normally and every entry with a Missing or Mismatch status has
all of its report lines in the output. -/
theorem claim_C2_amended (hash : List Nat → String) (sp cwd : Path) (fs : FS)
    (hnr : ∀ e ∈ VLH.HASHES, fs (resolved (ROOT sp) cwd e.1) ≠ FState.unreadable) :
    (∃ l c, VLH.main hash sp cwd fs = RunResult.exited l c) ∧
    (∀ e ∈ VLH.HASHES, VLH.entryStatus hash fs (ROOT sp) cwd e ≠ Status.Ok →
      ∀ s ∈ VLH.renderFail hash fs (ROOT sp) cwd e,
        s ∈ (VLH.main hash sp cwd fs).output) :=
  VLH.main_reports hash sp cwd fs hnr

/-- C2 witness: the amended claim at the all-absent filesystem, whose
hypothesis (no unopenable path) holds by computation. -/
theorem claim_C2_witness :
    (∀ e ∈ VLH.HASHES, fsAbsent (resolved (ROOT spW) cwdW e.1) ≠ FState.unreadable) ∧
    (∃ l c, VLH.main cHash0 spW cwdW fsAbsent = RunResult.exited l c) :=
  ⟨by decide, (claim_C2_amended cHash0 spW cwdW fsAbsent (by decide)).1⟩

/-- C3 counterexample: a protected path that exists but cannot be opened for
reading does not get status Missing: `verify-lock.py` terminates with the
uncaught I/O error and no missing-file line is printed. -/
theorem claim_C3_counterexample :
    fsUnreadable (resolved (ROOT spW) cwdW
      "plugins/field/Source/dsp/EMUAuthenticTables.h") = FState.unreadable ∧
    VLH.main cHash0 spW cwdW fsUnreadable = RunResult.uncaught [] ∧
    VLH.missingLine "plugins/field/Source/dsp/EMUAuthenticTables.h" ∉
      (VLH.main cHash0 spW cwdW fsUnreadable).output := by decide

/-- C3 (amended): in `verify-lock.py` an entry whose resolved path does not
exist gets status Missing, contributes exactly its missing-file line (not
the Mismatch lines) to the report, and the run still exits normally; only
an existing-but-unopenable path escapes this handling. -/
theorem claim_C3_amended (hash : List Nat → String) (sp cwd : Path) (fs : FS)
    (e : String × String) (he : e ∈ VLH.HASHES)
    (habs : fs (resolved (ROOT sp) cwd e.1) = FState.absent)
    (hnr : ∀ x ∈ VLH.HASHES, fs (resolved (ROOT sp) cwd x.1) ≠ FState.unreadable) :
    VLH.entryStatus hash fs (ROOT sp) cwd e = Status.Missing ∧
    VLH.renderFail hash fs (ROOT sp) cwd e = [VLH.missingLine e.1] ∧
    VLH.missingLine e.1 ∈ (VLH.main hash sp cwd fs).output ∧
    (∃ l c, VLH.main hash sp cwd fs = RunResult.exited l c) := by
  have hstat : VLH.entryStatus hash fs (ROOT sp) cwd e = Status.Missing := by
    simp [VLH.entryStatus, habs]
  have hrend : VLH.renderFail hash fs (ROOT sp) cwd e = [VLH.missingLine e.1] := by
    simp [VLH.renderFail, habs]
  have hne : VLH.entryStatus hash fs (ROOT sp) cwd e ≠ Status.Ok := by
    rw [hstat]; intro hcon; cases hcon
  have h2 := VLH.main_reports hash sp cwd fs hnr
  refine ⟨hstat, hrend, ?_, h2.1⟩
  exact h2.2 e he hne (VLH.missingLine e.1) (by rw [hrend]; exact List.mem_singleton.mpr rfl)

/-- C3 witness: the amended claim at the all-absent filesystem and the first
registry entry. -/
theorem claim_C3_witness :
    fsAbsent (resolved (ROOT spW) cwdW "plugins/field/Source/dsp/EMUAuthenticTables.h") =
      FState.absent ∧
    VLH.entryStatus cHash0 fsAbsent (ROOT spW) cwdW
      ("plugins/field/Source/dsp/EMUAuthenticTables.h",
       "06fbc6e2fd27db087219f0d9f53f9962997f8cb8001490458f6053bc2e46aa86") = Status.Missing :=
  ⟨rfl,
   (claim_C3_amended cHash0 spW cwdW fsAbsent _ (by decide) rfl (by decide)).1⟩

/-- C4: the chunked digest engine of `verify-lock.py` (8192-byte reads fed
to the incremental accumulator) and the single-read engine of
`verify_lock.py` agree on every filesystem and path, and for every byte
sequence the absorbed stream of the chunked read is the whole content, so
the digests coincide for any digest function. -/
theorem claim_C4_equiv (hash : List Nat → String) :
    (∀ (fs : FS) (p : Path), VLH.sha256_file hash fs p = VLU.sha hash fs p) ∧
    (∀ c : List Nat, hash (readChunks 8192 c).flatten = hash c) := by
  constructor
  · intro fs p
    unfold VLH.sha256_file VLU.sha
    cases fs p <;> simp [readChunks_join]
  · intro c
    rw [readChunks_join]

/-- C4 witness: the engine equivalence evaluated at a concrete digest
function, filesystem and content. -/
theorem claim_C4_witness :
    VLH.sha256_file hashW fsW (resolved (ROOT spW) cwdW
      "plugins/field/Source/dsp/EMUAuthenticTables.h") =
    VLU.sha hashW fsW (resolved (ROOT spW) cwdW
      "plugins/field/Source/dsp/EMUAuthenticTables.h") :=
  (claim_C4_equiv hashW).1 fsW _

/-- C5: provided the digest engine emits lowercase hex (as `hexdigest`
does), a computed digest that denotes the same value as the expected digest
regardless of letter case makes the entry Ok, in both scripts (their
expected digests are lowercase literals). -/
theorem claim_C5_case_insensitive (hash : List Nat → String)
    (hlow : ∀ c, toLowerStr (hash c) = hash c)
    (sp cwd : Path) (fs : FS) :
    (∀ e ∈ VLH.HASHES, ∀ c, fs (resolved (ROOT sp) cwd e.1) = FState.readable c →
      toLowerStr (hash (readChunks 8192 c).flatten) = toLowerStr e.2 →
      VLH.entryStatus hash fs (ROOT sp) cwd e = Status.Ok) ∧
    (∀ c, fs (resolved (ROOT sp) cwd VLU.zRel) = FState.readable c →
      toLowerStr (hash c) = toLowerStr VLU.EXP_Z →
      VLU.entryStatus hash fs (ROOT sp) cwd VLU.zRel VLU.EXP_Z = Status.Ok) ∧
    (∀ c, fs (resolved (ROOT sp) cwd VLU.tRel) = FState.readable c →
      toLowerStr (hash c) = toLowerStr VLU.EXP_T →
      VLU.entryStatus hash fs (ROOT sp) cwd VLU.tRel VLU.EXP_T = Status.Ok) := by
  refine ⟨?_, ?_, ?_⟩
  · intro e he c hfs hci
    have hexp : toLowerStr e.2 = e.2 := by fin_cases he <;> decide
    have hv : hash (readChunks 8192 c).flatten = e.2 := by
      rw [← hlow (readChunks 8192 c).flatten, hci, hexp]
    simp [VLH.entryStatus, hfs, hv]
  · intro c hfs hci
    have hexp : toLowerStr VLU.EXP_Z = VLU.EXP_Z := by decide
    have hv : hash c = VLU.EXP_Z := by rw [← hlow c, hci, hexp]
    simp [VLU.entryStatus, hfs, hv]
  · intro c hfs hci
    have hexp : toLowerStr VLU.EXP_T = VLU.EXP_T := by decide
    have hv : hash c = VLU.EXP_T := by rw [← hlow c, hci, hexp]
    simp [VLU.entryStatus, hfs, hv]

/-- C5 witness: a lowercase-emitting digest function and a case-insensitive
match give the first `verify-lock.py` entry status Ok. -/
theorem claim_C5_witness :
    (∀ c, toLowerStr (hashW c) = hashW c) ∧
    VLH.entryStatus hashW fsW (ROOT spW) cwdW
      ("plugins/field/Source/dsp/EMUAuthenticTables.h",
       "06fbc6e2fd27db087219f0d9f53f9962997f8cb8001490458f6053bc2e46aa86") = Status.Ok := by
  have hlow : ∀ c, toLowerStr (hashW c) = hashW c := by
    intro c
    unfold hashW
    split
    · decide
    split
    · decide
    split
    · decide
    split
    · decide
    split
    · decide
    · decide
  exact ⟨hlow,
    (claim_C5_case_insensitive hashW hlow spW cwdW fsW).1 _ (by decide) [0]
      (by decide) (by decide)⟩

/-- C6: with an absolute script path (`__file__` of the installed tool),
both scripts consult paths anchored two directory levels above the script —
independent of the invoking working directory — so a run behaves
identically from any working directory. -/
theorem claim_C6_cwd_independent (hash : List Nat → String) (sp cwd1 cwd2 : Path)
    (fs : FS) (habs : sp.abs = true) :
    VLH.main hash sp cwd1 fs = VLH.main hash sp cwd2 fs ∧
    VLU.main hash sp cwd1 fs = VLU.main hash sp cwd2 fs ∧
    (∀ rel : String, resolved (ROOT sp) cwd1 rel =
      Path.mk true (sp.comps.dropLast.dropLast ++ (parseRel rel).comps)) := by
  have hroot : (ROOT sp).abs = true := habs
  have hres : ∀ rel, resolved (ROOT sp) cwd1 rel = resolved (ROOT sp) cwd2 rel :=
    fun rel => resolved_cwd_indep _ _ _ rel hroot
  refine ⟨?_, VLU.main_cwd_congr hash sp cwd1 cwd2 fs hres, ?_⟩
  · exact VLH.mainLoop_cwd_congr hash fs (ROOT sp) cwd1 cwd2 hres VLH.HASHES true []
  · intro rel
    rw [resolved_abs _ _ _ hroot]
    simp [ROOT, Path.dirname]

/-- C6 witness: identical runs of both scripts from two different working
directories with a concrete absolute script path. -/
theorem claim_C6_witness :
    spW.abs = true ∧
    VLH.main hashW spW cwdW fsW = VLH.main hashW spW cwdW2 fsW ∧
    VLU.main hashW spW cwdW fsW = VLU.main hashW spW cwdW2 fsW :=
  ⟨rfl,
   (claim_C6_cwd_independent hashW spW cwdW cwdW2 fsW rfl).1,
   (claim_C6_cwd_independent hashW spW cwdW cwdW2 fsW rfl).2.1⟩

/-- C7: on a run where no read raises, the `verify-lock.py` report is the
concatenation, in registry (dict insertion) order, of the failing entries'
lines, followed by the summary — whatever subset of entries fails. -/
theorem claim_C7_report_order (hash : List Nat → String) (sp cwd : Path) (fs : FS)
    (hnr : ∀ e ∈ VLH.HASHES, fs (resolved (ROOT sp) cwd e.1) ≠ FState.unreadable) :
    (VLH.main hash sp cwd fs).output =
      ((VLH.HASHES.filter fun e => ! VLH.entryOk hash fs (ROOT sp) cwd e).map
          (VLH.renderFail hash fs (ROOT sp) cwd)).flatten ++
      (if VLH.HASHES.all (VLH.entryOk hash fs (ROOT sp) cwd)
       then ["LOCK OK"] else ["", VLH.failBanner]) := by
  have hspec := VLH.mainLoop_spec hash fs (ROOT sp) cwd VLH.HASHES true [] hnr
  show (VLH.mainLoop hash fs (ROOT sp) cwd VLH.HASHES true []).output = _
  rw [hspec]
  simp only [RunResult.output, List.nil_append]
  rw [Bool.true_and]

/-- C7 witness: the report-order characterization at a concrete filesystem. -/
theorem claim_C7_witness :
    (∀ e ∈ VLH.HASHES, fsAbsent (resolved (ROOT spW) cwdW e.1) ≠ FState.unreadable) ∧
    (VLH.main cHash0 spW cwdW fsAbsent).output =
      ((VLH.HASHES.filter fun e => ! VLH.entryOk cHash0 fsAbsent (ROOT spW) cwdW e).map
          (VLH.renderFail cHash0 fsAbsent (ROOT spW) cwdW)).flatten ++
      (if VLH.HASHES.all (VLH.entryOk cHash0 fsAbsent (ROOT spW) cwdW)
       then ["LOCK OK"] else ["", VLH.failBanner]) :=
  ⟨by decide, claim_C7_report_order cHash0 spW cwdW fsAbsent (by decide)⟩

/-- C8: when every registry entry's computed digest equals its expected
digest, `verify-lock.py` prints exactly the single success line `LOCK OK`
and exits 0 (and `verify_lock.py` prints its success line and exits 0). -/
theorem claim_C8_all_ok (hash : List Nat → String) (sp cwd : Path) (fs : FS)
    (hH : ∀ e ∈ VLH.HASHES, VLH.entryStatus hash fs (ROOT sp) cwd e = Status.Ok)
    (hZ : VLU.entryStatus hash fs (ROOT sp) cwd VLU.zRel VLU.EXP_Z = Status.Ok)
    (hT : VLU.entryStatus hash fs (ROOT sp) cwd VLU.tRel VLU.EXP_T = Status.Ok) :
    VLH.main hash sp cwd fs = RunResult.exited ["LOCK OK"] 0 ∧
    VLU.main hash sp cwd fs = RunResult.exited ["DSP lock OK."] 0 := by
  constructor
  · have hnr : ∀ e ∈ VLH.HASHES, fs (resolved (ROOT sp) cwd e.1) ≠ FState.unreadable := by
      intro e he hcon
      have hst := hH e he
      simp [VLH.entryStatus, hcon] at hst
    have hspec := VLH.mainLoop_spec hash fs (ROOT sp) cwd VLH.HASHES true [] hnr
    have hallb : VLH.HASHES.all (VLH.entryOk hash fs (ROOT sp) cwd) = true := by
      rw [List.all_eq_true]
      intro e he
      simp [VLH.entryOk, hH e he]
    have hfilt : (VLH.HASHES.filter fun e => ! VLH.entryOk hash fs (ROOT sp) cwd e) = [] := by
      rw [List.filter_eq_nil_iff]
      intro e he
      simp [VLH.entryOk, hH e he]
    rw [hallb, hfilt] at hspec
    simpa using hspec
  · obtain ⟨cz, hz, hvz⟩ : ∃ cz, fs (resolved (ROOT sp) cwd VLU.zRel) = FState.readable cz ∧
        hash cz = VLU.EXP_Z := by
      cases hfs : fs (resolved (ROOT sp) cwd VLU.zRel) with
      | absent => rw [VLU.entryStatus, hfs] at hZ; cases hZ
      | unreadable => rw [VLU.entryStatus, hfs] at hZ; cases hZ
      | readable c =>
          by_cases hv : hash c = VLU.EXP_Z
          · exact ⟨c, rfl, hv⟩
          · simp [VLU.entryStatus, hfs, hv] at hZ
    obtain ⟨ct, ht, hvt⟩ : ∃ ct, fs (resolved (ROOT sp) cwd VLU.tRel) = FState.readable ct ∧
        hash ct = VLU.EXP_T := by
      cases hfs : fs (resolved (ROOT sp) cwd VLU.tRel) with
      | absent => rw [VLU.entryStatus, hfs] at hT; cases hT
      | unreadable => rw [VLU.entryStatus, hfs] at hT; cases hT
      | readable c =>
          by_cases hv : hash c = VLU.EXP_T
          · exact ⟨c, rfl, hv⟩
          · simp [VLU.entryStatus, hfs, hv] at hT
    simp [VLU.main, VLU.sha, hz, ht, hvz, hvt]

/-- C8 witness: a concrete all-matching filesystem makes both scripts print
their success line and exit 0. -/
theorem claim_C8_witness :
    (∀ e ∈ VLH.HASHES, VLH.entryStatus hashW fsW (ROOT spW) cwdW e = Status.Ok) ∧
    VLH.main hashW spW cwdW fsW = RunResult.exited ["LOCK OK"] 0 :=
  ⟨by decide,
   (claim_C8_all_ok hashW spW cwdW fsW (by decide) (by decide) (by decide)).1⟩

/-- C9: both verifiers are deterministic functions of the registry and the
file contents: two runs over equal filesystems produce identical results,
identical report text and identical exit codes. -/
theorem claim_C9_deterministic (hash : List Nat → String) (sp cwd : Path)
    (fs1 fs2 : FS) (h : ∀ p, fs1 p = fs2 p) :
    VLH.main hash sp cwd fs1 = VLH.main hash sp cwd fs2 ∧
    VLU.main hash sp cwd fs1 = VLU.main hash sp cwd fs2 ∧
    (∀ e ∈ VLH.HASHES, VLH.entryStatus hash fs1 (ROOT sp) cwd e =
      VLH.entryStatus hash fs2 (ROOT sp) cwd e) := by
  have heq : fs1 = fs2 := funext h
  subst heq
  exact ⟨rfl, rfl, fun _ _ => rfl⟩

/-- C9 witness: the determinism claim at a concrete filesystem, rerun on the
unchanged state. -/
theorem claim_C9_witness :
    (∀ p, fsW p = fsW p) ∧
    VLH.main hashW spW cwdW fsW = VLH.main hashW spW cwdW fsW :=
  ⟨fun _ => rfl,
   (claim_C9_deterministic hashW spW cwdW fsW fsW (fun _ => rfl)).1⟩

/-- C10 counterexample: for a digest function with a collision across the
two reads, the reported second-read digest equals the compared digest even
though the two reads returned different byte contents, refuting the claimed
equivalence "reported digest = compared digest iff both reads returned the
same bytes" (no fixed-size digest is collision-free over all byte
sequences). -/
theorem claim_C10_counterexample :
    VLU.checkTwice cHash0 "x" [0] [1] = some "" ∧
    cHash0 [0] = "" ∧
    ([0] : List Nat) ≠ [1] := by decide

/-- C10 (amended): in `verify_lock.py`, for an entry whose first-read digest
differs from the expected value, the file is read and hashed a second time
and the reported digest is exactly the hash of the second read; when both
reads return the same byte content it equals the compared digest (the
converse fails for digest functions with collisions). -/
theorem claim_C10_amended (hash : List Nat → String) (expected : String)
    (c1 c2 : List Nat) (hne : hash c1 ≠ expected) :
    VLU.checkTwice hash expected c1 c2 = some (hash c2) ∧
    (c1 = c2 → hash c2 = hash c1) := by
  refine ⟨by simp [VLU.checkTwice, hne], fun h => by rw [h]⟩

/-- C10 witness: the amended claim at a concrete mismatching entry whose two
reads agree. -/
theorem claim_C10_witness :
    cHash0 [0] ≠ "x" ∧
    VLU.checkTwice cHash0 "x" [0] [0] = some (cHash0 [0]) :=
  ⟨by decide, (claim_C10_amended cHash0 "x" [0] [0] (by decide)).1⟩

end LockVerify
